import Mathlib

/-!
# Verification of the assets-manager batch image workers

Shallow embedding of the two Qt workers of the repository
(`src/src/workers/image_workers.py`, and the legacy duplicates in
`src/image_resizer_gui.py`): the event traces their `run` methods emit,
the per-task resize/convert computations, and the artifacts they save.

Modelling conventions:
* Python float expressions such as `int((completed / total) * 100)`,
  `int(target_width / aspect_ratio)` and `int(quality / 11.1)` are embedded
  as exact rational arithmetic followed by `Int.floor` (Python `int()`
  truncates toward zero; every operand involved is nonnegative, where
  truncation equals floor).  Python's `round` (ties to even) is embedded by
  `roundHalfEven`.
* The Qt signals `progress`, `status_update`, `error`, `finished` become an
  inductive `Event`; a `run` invocation is a function from its inputs and
  the completion-ordered list of task results to the list of emitted events.
* File-system effects (`save`, `os.remove`) are recorded as data
  (`SaveCall`, temp-file fields) rather than performed.
-/

/-- A decoded in-memory image: width, height and color mode,
as exposed by PIL's `Image`. -/
structure Raster where
  width : Nat
  height : Nat
  mode : String
deriving DecidableEq, Repr

/-- Result of one worker task: Python `return True` on success, or the
descriptive failure string the task returns after catching an exception. -/
inductive TaskResult where
  | ok : TaskResult
  | fail : String → TaskResult
deriving DecidableEq, Repr

/-- One emitted Qt signal of a worker run. -/
inductive Event where
  | progress : Nat → Event
  | status : String → Event
  | error : String → Event
  | finished : Event
deriving DecidableEq, Repr

/-- `True`/`Finished`-terminating events of the reporter contract. -/
def isTerminal : Event → Bool
  | Event.error _ => true
  | Event.finished => true
  | _ => false

/-- The emitted progress percentages of a trace, in order. -/
def progressValues (es : List Event) : List Nat :=
  es.filterMap fun e =>
    match e with
    | Event.progress n => some n
    | _ => none

/-- Message of the first failing task in completion order, if any. -/
def firstFail : List TaskResult → Option String
  | [] => none
  | TaskResult.ok :: rest => firstFail rest
  | TaskResult.fail m :: _ => some m

/-- Number of successful results consumed before the first failure. -/
def consumedOk : List TaskResult → Nat
  | [] => 0
  | TaskResult.ok :: rest => consumedOk rest + 1
  | TaskResult.fail _ :: _ => 0

/-- The result-consumption loop shared by both workers
(`for i, future in enumerate(concurrent.futures.as_completed(futures))`):
on a failing result emit one error event (the failure message run through
`wrap`) and stop; on a success increment the counter and emit
`progress(int(completed / total * 100))` and a status line
`label ++ "completed/total"`.  Returns the events together with
`True` iff every result was consumed successfully. -/
def consume_loop (total : Nat) (label : String) (wrap : String → String) :
    Nat → List TaskResult → List Event × Bool
  | _, [] => ([], true)
  | _, TaskResult.fail msg :: _ => ([Event.error (wrap msg)], false)
  | completed, TaskResult.ok :: rest =>
      let c := completed + 1
      let r := consume_loop total label wrap c rest
      (Event.progress (c * 100 / total) ::
        Event.status (label ++ toString c ++ "/" ++ toString total) :: r.1, r.2)

/-- Closed form of the successful prefix of `consume_loop`: the interleaved
progress/status events for completions `completed+1, …, completed+n`. -/
def ok_events (total : Nat) (label : String) : Nat → Nat → List Event
  | _, 0 => []
  | completed, n + 1 =>
      Event.progress ((completed + 1) * 100 / total) ::
        Event.status (label ++ toString (completed + 1) ++ "/" ++ toString total) ::
        ok_events total label (completed + 1) n

/-- `ImageResizerWorker.run` (src/src/workers/image_workers.py, duplicated in
src/image_resizer_gui.py).  `openErr` is the detail string when the initial
`Image.open` verification fails, `results` the task results in completion
order, `manifestErr` the detail string when writing `manifest.json` fails. -/
def resizerRun (openErr : Option String) (sizes : List Nat)
    (results : List TaskResult) (manifestErr : Option String) : List Event :=
  match openErr with
  | some d => [Event.error ("Failed to open image: " ++ d)]
  | none =>
      let total_tasks := sizes.length
      let r := consume_loop total_tasks "Generating icons: "
        (fun m => "Failed to resize image: " ++ m) 0 results
      Event.status "Loading image..." :: r.1 ++
        (if r.2 then
          match manifestErr with
          | some e => [Event.error ("Failed to create manifest.json: " ++ e)]
          | none =>
              [Event.status "All icons generated successfully!",
               Event.progress 100, Event.finished]
        else [])

/-- The four keys of the `format_settings` dict in
`ImageConverterWorker.run` (src/src/workers/image_workers.py). -/
def format_settings_keys : List String := ["WebP", "JPEG", "PNG", "AVIF"]

/-- `ImageConverterWorker.run` (src/src/workers/image_workers.py).
The submission loop errors out with "Unsupported format" on the first file
when the format is neither `Both` nor a `format_settings` key; otherwise the
results are consumed with `total_files = len(self.input_files)` as the
progress divisor (even though `Both` submits two tasks per file). -/
def converterRun (output_format : String) (input_files : List String)
    (results : List TaskResult) : List Event :=
  Event.status "Preparing to convert..." ::
    (if input_files.length ≠ 0 ∧ output_format ≠ "Both" ∧
        output_format ∉ format_settings_keys then
      [Event.error ("Unsupported format: " ++ output_format)]
    else
      let total_files := input_files.length
      let r := consume_loop total_files "Converting files: " (fun m => m) 0 results
      r.1 ++
        (if r.2 then
          [Event.status ("Successfully converted " ++ toString results.length ++ " files!"),
           Event.progress 100, Event.finished]
        else []))

/-- Number of futures `ImageConverterWorker.run` submits: two per file in
`Both` mode, otherwise one per file. -/
def numTasks (output_format : String) (numFiles : Nat) : Nat :=
  if output_format = "Both" then 2 * numFiles else numFiles

/-- A trace that is terminated by exactly one `Error`-or-`Finished` event:
nonempty, terminal last element, no terminal before it. -/
def terminatesOnce (es : List Event) : Prop :=
  ∃ pre last, es = pre ++ [last] ∧ isTerminal last = true ∧
    ∀ e ∈ pre, isTerminal e = false

/-! ## Icon resize tasks (`resize_image` inside `ImageResizerWorker.run`) -/

/-- One file written by a worker task. -/
structure Artifact where
  path : String
  format : String
  width : Nat
  height : Nat
  mode : String
deriving DecidableEq, Repr

/-- `resize_image(size)`: copy the shared raster, resize to `(size, size)`
with LANCZOS; when `size == 16` convert to RGBA and save `favicon.ico` in
ICO format, otherwise save `icon-<size>x<size>.png` as PNG. -/
def resize_image (output_dir : String) (img : Raster) (size : Nat) : Artifact :=
  if size = 16 then
    { path := output_dir ++ "/favicon.ico", format := "ICO",
      width := size, height := size, mode := "RGBA" }
  else
    { path := output_dir ++ "/icon-" ++ toString size ++ "x" ++ toString size ++ ".png",
      format := "PNG", width := size, height := size, mode := img.mode }

/-- The artifacts a fully successful icon run writes, one per size. -/
def iconOutputs (output_dir : String) (img : Raster) (sizes : List Nat) :
    List Artifact :=
  sizes.map (resize_image output_dir img)

/-- One entry of the `icons` array of `manifest.json`. -/
structure ManifestIcon where
  src : String
  sizes : String
  type : String
deriving DecidableEq, Repr

/-- The manifest icon array: one entry per size different from 16
(`for size in self.sizes if size != 16`). -/
def manifest_icons (sizes : List Nat) : List ManifestIcon :=
  (sizes.filter (fun s => s ≠ 16)).map fun s =>
    { src := "icon-" ++ toString s ++ "x" ++ toString s ++ ".png",
      sizes := toString s ++ "x" ++ toString s,
      type := "image/png" }

/-- An artifact is the favicon container. -/
def isFavicon (a : Artifact) : Bool := a.format = "ICO"

/-- An artifact is a plain PNG. -/
def isPngArtifact (a : Artifact) : Bool := a.format = "PNG"

/-! ## Conversion tasks (`convert_file` in both workers) -/

/-- The dict the UI builds when the resize checkbox is ticked. -/
structure ResizeSettings where
  width : Nat
  height : Nat
  keep_aspect_ratio : Bool
deriving DecidableEq, Repr

/-- One `img.save(...)` invocation: target path, PIL format name, the
`quality=` or `compress_level=` keyword if passed, and the dimensions and
mode of the image being saved. -/
structure SaveCall where
  path : String
  format : String
  quality : Option Nat := none
  compress_level : Option Int := none
  width : Nat
  height : Nat
  mode : String
deriving DecidableEq, Repr

/-- Everything one `convert_file` task does to the file system. -/
structure ConvOutcome where
  saves : List SaveCall
  temp_created : Option String := none
  temp_removed : Bool := false
deriving DecidableEq, Repr

/-- Python 3 `round` on an exact rational: round half to even. -/
def roundHalfEven (q : ℚ) : ℤ :=
  if q - ⌊q⌋ < 1 / 2 then ⌊q⌋
  else if 1 / 2 < q - ⌊q⌋ then ⌊q⌋ + 1
  else if ⌊q⌋ % 2 = 0 then ⌊q⌋ else ⌊q⌋ + 1

/-- The dimensions of the last (final) save of a conversion task. -/
def final_dims (o : ConvOutcome) : Nat × Nat :=
  match o.saves.getLast? with
  | some s => (s.width, s.height)
  | none => (0, 0)

/-- The `quality=` keyword of the last (final) save of a conversion task. -/
def final_quality (o : ConvOutcome) : Option Nat :=
  match o.saves.getLast? with
  | some s => s.quality
  | none => none

/-- The resize block at the top of both `convert_file` implementations
(inlined identically in `src/image_resizer_gui.py` and
`src/src/workers/image_workers.py`): with a resize dict, aspect-locked mode
computes `aspect_ratio = width/height` and derives the other dimension with
Python `int()` truncation; otherwise the spec dimensions are used verbatim. -/
def convert_resize (resize_settings : Option ResizeSettings) (img0 : Raster) : Raster :=
  match resize_settings with
  | some rs =>
      let target_width := rs.width
      let target_height := rs.height
      let wh :=
        if rs.keep_aspect_ratio then
          let aspect_ratio : ℚ := (img0.width : ℚ) / (img0.height : ℚ)
          if img0.width > img0.height then
            (target_width, (⌊(target_width : ℚ) / aspect_ratio⌋).toNat)
          else
            ((⌊(target_height : ℚ) * aspect_ratio⌋).toNat, target_height)
        else (target_width, target_height)
      { img0 with width := wh.1, height := wh.2 }
  | none => img0

/-- `convert_file(file_path)` of the legacy `ImageConverterWorker` in
`src/image_resizer_gui.py` (the variant with a caller-supplied `quality`),
applied to an already-opened raster.  `remove_ok` tells whether the
best-effort `os.remove` of the AVIF temp file would succeed. -/
def gui_convert_file (output_format : String) (quality : Nat)
    (resize_settings : Option ResizeSettings) (output_dir base_name : String)
    (img0 : Raster) (remove_ok : Bool) : ConvOutcome :=
  let img := convert_resize resize_settings img0
  -- original_width, original_height are rebound to the (possibly resized) dims
  let original_width := img.width
  let original_height := img.height
  let extension :=
    if output_format = "WebP" then ".webp"
    else if output_format = "JPEG" then ".jpg"
    else if output_format = "PNG" then ".png"
    else ".avif"
  let output_path := output_dir ++ "/" ++ base_name ++ extension
  -- Convert color mode if needed
  let img :=
    if output_format = "JPEG" ∧ img.mode = "RGBA" then { img with mode := "RGB" }
    else img
  if output_format = "AVIF" then
    let width := img.width
    let height := img.height
    let new_width := (width + 7) / 8 * 8
    let new_height := (height + 7) / 8 * 8
    if new_width ≠ width ∨ new_height ≠ height then
      let temp_path := output_path ++ ".tmp"
      { saves :=
          [{ path := temp_path, format := "AVIF", quality := some quality,
             width := new_width, height := new_height, mode := img.mode },
           { path := output_path, format := "AVIF", quality := some quality,
             width := original_width, height := original_height, mode := img.mode }],
        temp_created := some temp_path,
        temp_removed := remove_ok }
    else
      { saves :=
          [{ path := output_path, format := "AVIF", quality := some quality,
             width := img.width, height := img.height, mode := img.mode }] }
  else if output_format = "WebP" ∨ output_format = "JPEG" then
    { saves :=
        [{ path := output_path, format := output_format, quality := some quality,
           width := img.width, height := img.height, mode := img.mode }] }
  else
    -- PNG: quality is reinterpreted as a compression level
    let compression_level : ℤ := 9 - ⌊(quality : ℚ) / (111 / 10 : ℚ)⌋
    { saves :=
        [{ path := output_path, format := "PNG",
           compress_level := some (min 9 (max 0 compression_level)),
           width := img.width, height := img.height, mode := img.mode }] }

/-- `convert_file(file_path, output_format)` of `ImageConverterWorker` in
`src/src/workers/image_workers.py`: no quality parameter exists, every
quality is hard-coded to 100; AVIF dimensions not divisible by 8 are
downscaled (`(width // 8) * 8`, derived height re-rounded then floored to a
multiple of 8) and saved directly, with no temp file and no crop-back. -/
def workers_convert_file (output_format : String)
    (resize_settings : Option ResizeSettings) (output_dir base_name : String)
    (img0 : Raster) : ConvOutcome :=
  let img := convert_resize resize_settings img0
  let extension :=
    if output_format = "WebP" then ".webp"
    else if output_format = "JPEG" then ".jpg"
    else if output_format = "PNG" then ".png"
    else ".avif"
  let output_path := output_dir ++ "/" ++ base_name ++ extension
  if output_format = "PNG" then
    -- Hardcoded quality to 100
    let compression_level : ℤ := 9 - ⌊(100 : ℚ) / (111 / 10 : ℚ)⌋
    { saves :=
        [{ path := output_path, format := "PNG",
           compress_level := some (min 9 (max 0 compression_level)),
           width := img.width, height := img.height, mode := img.mode }] }
  else if output_format = "AVIF" then
    let width := img.width
    let height := img.height
    let img :=
      if width % 8 ≠ 0 ∨ height % 8 ≠ 0 then
        let new_width : ℕ := width / 8 * 8
        let new_height : ℕ :=
          (roundHalfEven ((new_width : ℚ) * (height : ℚ) / (width : ℚ))).toNat
        let new_height : ℕ := new_height / 8 * 8
        { img with width := new_width, height := new_height }
      else img
    -- Hardcoded quality to 100
    { saves :=
        [{ path := output_path, format := "AVIF", quality := some 100,
           width := img.width, height := img.height, mode := img.mode }] }
  else
    let img :=
      if output_format = "JPEG" ∧ img.mode = "RGBA" then { img with mode := "RGB" }
      else img
    -- Hardcoded quality to 100
    { saves :=
        [{ path := output_path, format := output_format, quality := some 100,
           width := img.width, height := img.height, mode := img.mode }] }

/-- The `TaskResult` a `convert_file` task yields when opening the source
fails: the exception detail is wrapped as
`"Error converting <basename>: <detail>"`. -/
def convert_task_result (base_name : String) (open_result : Except String Raster) :
    TaskResult :=
  match open_result with
  | Except.error d => TaskResult.fail ("Error converting " ++ base_name ++ ": " ++ d)
  | Except.ok _ => TaskResult.ok

/-- Modelled from the spec: the aspect-locked resize formula exactly as the
spec sentence states it ("if W>H the output width equals Tw and height
equals round(Tw/(W/H)); otherwise output height equals Th and width equals
round(Th*(H/W))"), used only to compare the spec's words with the code. -/
def spec_aspect_dims (W H Tw Th : Nat) : Nat × Nat :=
  if W > H then
    (Tw, (round ((Tw : ℚ) / ((W : ℚ) / (H : ℚ)))).toNat)
  else
    ((round ((Th : ℚ) * ((H : ℚ) / (W : ℚ)))).toNat, Th)

/-- Modelled from the spec: `Progress(round(completed/N * 100))` as the spec
sentence states it, used only to compare the spec's words with the code. -/
def round_pct (completed total : Nat) : ℤ :=
  round ((completed * 100 : ℚ) / (total : ℚ))

/-! ## The `ImageConverterWorker` constructor and its `main_window.py` call -/

/-- A Python value as far as the constructor arguments are concerned. -/
inductive PyValue where
  | vint : Int → PyValue
  | vstr : String → PyValue
  | vlist : List String → PyValue
  | vdict : ResizeSettings → PyValue
  | vnone : PyValue
deriving DecidableEq, Repr

/-- The four attributes `ImageConverterWorker.__init__`
(src/src/workers/image_workers.py) assigns. -/
structure ConverterWorkerState where
  input_files : PyValue
  output_dir : PyValue
  output_format : PyValue
  resize_settings : PyValue
deriving DecidableEq, Repr

/-- Positional-argument binding of
`ImageConverterWorker.__init__(self, input_files, output_dir, output_format,
resize_settings=None)`: three required parameters plus one optional;
any other arity raises `TypeError`. -/
def converter_init_bind (args : List PyValue) : Except String ConverterWorkerState :=
  match args with
  | [a, b, c] => Except.ok ⟨a, b, c, PyValue.vnone⟩
  | [a, b, c, d] => Except.ok ⟨a, b, c, d⟩
  | _ => Except.error "TypeError: __init__ takes from 4 to 5 positional arguments"

/-- The argument list `start_conversion` in `src/src/ui/main_window.py`
passes to `ImageConverterWorker(...)`: five positional values, with the
quality slider value in the fourth position and the resize settings in the
fifth. -/
def main_window_convert_call (files : List String) (dir fmt : String)
    (quality : Int) (resize : PyValue) : List PyValue :=
  [PyValue.vlist files, PyValue.vstr dir, PyValue.vstr fmt,
   PyValue.vint quality, resize]


/-! ## Helper lemmas about the consumption loop -/

theorem consume_loop_fst (t : Nat) (lab : String) (wrap : String → String) :
    ∀ (rs : List TaskResult) (c : Nat),
      (consume_loop t lab wrap c rs).1 =
        ok_events t lab c (consumedOk rs) ++
          ((firstFail rs).map fun m => Event.error (wrap m)).toList := by
  intro rs
  induction rs with
  | nil => intro c; simp [consume_loop, consumedOk, firstFail, ok_events]
  | cons r rest ih =>
      intro c
      cases r with
      | ok => simp [consume_loop, consumedOk, firstFail, ok_events, ih]
      | fail m => simp [consume_loop, consumedOk, firstFail, ok_events]

theorem consume_loop_snd (t : Nat) (lab : String) (wrap : String → String) :
    ∀ (rs : List TaskResult) (c : Nat),
      (consume_loop t lab wrap c rs).2 = (firstFail rs).isNone := by
  intro rs
  induction rs with
  | nil => intro c; simp [consume_loop, firstFail]
  | cons r rest ih =>
      intro c
      cases r with
      | ok => simpa [consume_loop, firstFail] using ih (c + 1)
      | fail m => simp [consume_loop, firstFail]

theorem consumedOk_le_length (rs : List TaskResult) : consumedOk rs ≤ rs.length := by
  induction rs with
  | nil => simp [consumedOk]
  | cons r rest ih =>
      cases r with
      | ok => simpa [consumedOk] using ih
      | fail m => simp [consumedOk]

theorem consumedOk_eq_length_iff (rs : List TaskResult) :
    consumedOk rs = rs.length ↔ firstFail rs = none := by
  induction rs with
  | nil => simp [consumedOk, firstFail]
  | cons r rest ih =>
      cases r with
      | ok => simpa [consumedOk, firstFail] using ih
      | fail m =>
          simp only [consumedOk, firstFail, List.length_cons]
          constructor
          · intro h; omega
          · intro h; cases h

theorem ok_events_no_terminal (t : Nat) (lab : String) :
    ∀ (n c : Nat), ∀ e ∈ ok_events t lab c n, isTerminal e = false := by
  intro n
  induction n with
  | zero => intro c e he; simp [ok_events] at he
  | succ k ih =>
      intro c e he
      simp only [ok_events, List.mem_cons] at he
      rcases he with rfl | rfl | hmem
      · rfl
      · rfl
      · exact ih (c + 1) e hmem

theorem progressValues_ok_events (t : Nat) (lab : String) :
    ∀ (n c : Nat),
      progressValues (ok_events t lab c n) =
        (List.range n).map fun i => (c + 1 + i) * 100 / t := by
  intro n
  induction n with
  | zero => intro c; simp [ok_events, progressValues]
  | succ k ih =>
      intro c
      have step : progressValues (ok_events t lab c (k + 1)) =
          (c + 1) * 100 / t :: progressValues (ok_events t lab (c + 1) k) := by
        simp [ok_events, progressValues]
      rw [step, ih (c + 1), List.range_succ_eq_map, List.map_cons, List.map_map]
      congr 1
      apply List.map_congr_left
      intro i _
      simp only [Function.comp_apply]
      congr 2
      omega

theorem resizerRun_none_eq (sizes : List Nat) (results : List TaskResult)
    (mErr : Option String) :
    resizerRun none sizes results mErr =
      Event.status "Loading image..." ::
        ok_events sizes.length "Generating icons: " 0 (consumedOk results) ++
        (match firstFail results with
         | some m => [Event.error ("Failed to resize image: " ++ m)]
         | none =>
             match mErr with
             | some e => [Event.error ("Failed to create manifest.json: " ++ e)]
             | none =>
                 [Event.status "All icons generated successfully!",
                  Event.progress 100, Event.finished]) := by
  simp only [resizerRun, consume_loop_fst, consume_loop_snd]
  cases h : firstFail results with
  | none => cases mErr <;> simp [h]
  | some m => simp [h]

theorem converterRun_eq (fmt : String) (files : List String)
    (cres : List TaskResult)
    (hfmt : fmt ∈ format_settings_keys ∨ fmt = "Both") :
    converterRun fmt files cres =
      Event.status "Preparing to convert..." ::
        ok_events files.length "Converting files: " 0 (consumedOk cres) ++
        (match firstFail cres with
         | some m => [Event.error m]
         | none =>
             [Event.status ("Successfully converted " ++ toString cres.length ++ " files!"),
              Event.progress 100, Event.finished]) := by
  have hguard : ¬(files.length ≠ 0 ∧ fmt ≠ "Both" ∧ fmt ∉ format_settings_keys) := by
    rcases hfmt with h | h
    · intro hc; exact hc.2.2 h
    · intro hc; exact hc.2.1 h
  simp only [converterRun, if_neg hguard, consume_loop_fst, consume_loop_snd]
  cases h : firstFail cres with
  | none => simp [h]
  | some m => simp [h]

theorem no_terminal_cons_ok_events (s : String) (t : Nat) (lab : String)
    (c n : Nat) (extra : List Event)
    (hextra : ∀ e ∈ extra, isTerminal e = false) :
    ∀ e ∈ Event.status s :: ok_events t lab c n ++ extra, isTerminal e = false := by
  intro e he
  rcases List.mem_cons.1 he with rfl | he2
  · rfl
  rcases List.mem_append.1 he2 with h3 | h3
  · exact ok_events_no_terminal t lab n c e h3
  · exact hextra e h3

/-- C1: for every batch run of either worker, the event stream is terminated
by exactly one of Error or Finished; on the first failing task result the
worker emits one Error carrying that task's failure message (the resizer
prefixes it with "Failed to resize image: ", the converter emits it
verbatim) as the final event, and nothing is emitted after it. -/
theorem c1_terminal_events
    (openErr : Option String) (sizes : List Nat) (results : List TaskResult)
    (manifestErr : Option String) (fmt : String) (files : List String)
    (cresults : List TaskResult) :
    terminatesOnce (resizerRun openErr sizes results manifestErr) ∧
    terminatesOnce (converterRun fmt files cresults) ∧
    (∀ m, openErr = none → firstFail results = some m →
      (resizerRun openErr sizes results manifestErr).getLast? =
        some (Event.error ("Failed to resize image: " ++ m))) ∧
    (∀ m, fmt ∈ format_settings_keys ∨ fmt = "Both" → firstFail cresults = some m →
      (converterRun fmt files cresults).getLast? = some (Event.error m)) := by
  refine ⟨?_, ?_, ?_, ?_⟩
  · -- resizer terminates once
    cases openErr with
    | some d =>
        exact ⟨[], Event.error ("Failed to open image: " ++ d), rfl, rfl, by simp⟩
    | none =>
        rw [resizerRun_none_eq]
        cases h : firstFail results with
        | some m =>
            refine ⟨Event.status "Loading image..." ::
              ok_events sizes.length "Generating icons: " 0 (consumedOk results),
              Event.error ("Failed to resize image: " ++ m), by simp, rfl, ?_⟩
            simpa using no_terminal_cons_ok_events _ _ _ _ _ [] (by simp)
        | none =>
            cases manifestErr with
            | some e =>
                refine ⟨Event.status "Loading image..." ::
                  ok_events sizes.length "Generating icons: " 0 (consumedOk results),
                  Event.error ("Failed to create manifest.json: " ++ e), by simp, rfl, ?_⟩
                simpa using no_terminal_cons_ok_events _ _ _ _ _ [] (by simp)
            | none =>
                refine ⟨Event.status "Loading image..." ::
                  ok_events sizes.length "Generating icons: " 0 (consumedOk results) ++
                  [Event.status "All icons generated successfully!", Event.progress 100],
                  Event.finished, by simp, rfl, ?_⟩
                exact no_terminal_cons_ok_events _ _ _ _ _
                  [Event.status "All icons generated successfully!", Event.progress 100]
                  (by intro e he; rcases List.mem_cons.1 he with rfl | he2
                      · rfl
                      · simp only [List.mem_singleton] at he2; subst he2; rfl)
  · -- converter terminates once
    by_cases hfmt : fmt ∈ format_settings_keys ∨ fmt = "Both"
    · rw [converterRun_eq fmt files cresults hfmt]
      cases h : firstFail cresults with
      | some m =>
          refine ⟨Event.status "Preparing to convert..." ::
            ok_events files.length "Converting files: " 0 (consumedOk cresults),
            Event.error m, by simp, rfl, ?_⟩
          simpa using no_terminal_cons_ok_events _ _ _ _ _ [] (by simp)
      | none =>
          refine ⟨Event.status "Preparing to convert..." ::
            ok_events files.length "Converting files: " 0 (consumedOk cresults) ++
            [Event.status ("Successfully converted " ++ toString cresults.length ++ " files!"),
             Event.progress 100],
            Event.finished, by simp, rfl, ?_⟩
          exact no_terminal_cons_ok_events _ _ _ _ _
            [Event.status ("Successfully converted " ++ toString cresults.length ++ " files!"),
             Event.progress 100]
            (by intro e he; rcases List.mem_cons.1 he with rfl | he2
                · rfl
                · simp only [List.mem_singleton] at he2; subst he2; rfl)
    · -- unsupported format: either the guard fires or the loop consumes
      by_cases hg : files.length ≠ 0 ∧ fmt ≠ "Both" ∧ fmt ∉ format_settings_keys
      · refine ⟨[Event.status "Preparing to convert..."],
          Event.error ("Unsupported format: " ++ fmt), ?_, rfl, ?_⟩
        · simp only [converterRun, if_pos hg]
          rfl
        · intro e he; simp only [List.mem_singleton] at he; subst he; rfl
      · have hform : converterRun fmt files cresults =
            Event.status "Preparing to convert..." ::
              ok_events files.length "Converting files: " 0 (consumedOk cresults) ++
              (match firstFail cresults with
               | some m => [Event.error m]
               | none =>
                   [Event.status ("Successfully converted " ++
                      toString cresults.length ++ " files!"),
                    Event.progress 100, Event.finished]) := by
          simp only [converterRun, if_neg hg, consume_loop_fst, consume_loop_snd]
          cases h : firstFail cresults with
          | none => simp [h]
          | some m => simp [h]
        rw [hform]
        cases h : firstFail cresults with
        | some m =>
            refine ⟨Event.status "Preparing to convert..." ::
              ok_events files.length "Converting files: " 0 (consumedOk cresults),
              Event.error m, by simp, rfl, ?_⟩
            simpa using no_terminal_cons_ok_events _ _ _ _ _ [] (by simp)
        | none =>
            refine ⟨Event.status "Preparing to convert..." ::
              ok_events files.length "Converting files: " 0 (consumedOk cresults) ++
              [Event.status ("Successfully converted " ++ toString cresults.length ++ " files!"),
               Event.progress 100],
              Event.finished, by simp, rfl, ?_⟩
            exact no_terminal_cons_ok_events _ _ _ _ _
              [Event.status ("Successfully converted " ++ toString cresults.length ++ " files!"),
               Event.progress 100]
              (by intro e he; rcases List.mem_cons.1 he with rfl | he2
                  · rfl
                  · simp only [List.mem_singleton] at he2; subst he2; rfl)
  · -- failing resizer run ends with the wrapped task message
    intro m hopen hff
    subst hopen
    rw [resizerRun_none_eq, hff]
    exact List.getLast?_concat _
  · -- failing converter run ends with the task message verbatim
    intro m hfmt hff
    rw [converterRun_eq fmt files cresults hfmt, hff]
    exact List.getLast?_concat _

/-- Witness for C1 at concrete inputs: a failing resizer run over two sizes
and a failing dual-format converter run. -/
theorem c1_terminal_events_witness :
    terminatesOnce (resizerRun none [16, 72] [TaskResult.ok, TaskResult.fail "boom"] none) ∧
    terminatesOnce (converterRun "Both" ["a.png"] [TaskResult.fail "bad"]) ∧
    (resizerRun none [16, 72] [TaskResult.ok, TaskResult.fail "boom"] none).getLast? =
      some (Event.error ("Failed to resize image: " ++ "boom")) ∧
    (converterRun "Both" ["a.png"] [TaskResult.fail "bad"]).getLast? =
      some (Event.error "bad") := by
  obtain ⟨h1, h2, h3, h4⟩ := c1_terminal_events none [16, 72]
    [TaskResult.ok, TaskResult.fail "boom"] none "Both" ["a.png"] [TaskResult.fail "bad"]
  exact ⟨h1, h2, h3 "boom" rfl (by decide), h4 "bad" (Or.inr rfl) (by decide)⟩

/-! ## Progress value properties -/

theorem progressValues_status_cons (s : String) (l : List Event) :
    progressValues (Event.status s :: l) = progressValues l := by
  simp [progressValues]

theorem progressValues_append (l r : List Event) :
    progressValues (l ++ r) = progressValues l ++ progressValues r :=
  List.filterMap_append l r _

theorem range_map_shift (n t : Nat) :
    ((List.range n).map fun i => (0 + 1 + i) * 100 / t) =
      (List.range n).map fun i => (i + 1) * 100 / t :=
  List.map_congr_left fun i _ => by congr 1; omega

theorem progressValues_resizer (sizes : List Nat) (results : List TaskResult)
    (mErr : Option String) :
    progressValues (resizerRun none sizes results mErr) =
      ((List.range (consumedOk results)).map fun i => (i + 1) * 100 / sizes.length) ++
      (if firstFail results = none ∧ mErr = none then [100] else []) := by
  cases h : firstFail results with
  | some m =>
      simp only [resizerRun_none_eq, h]
      rw [progressValues_append, progressValues_status_cons,
        progressValues_ok_events, range_map_shift]
      simp [progressValues]
  | none =>
      cases mErr with
      | some e =>
          simp only [resizerRun_none_eq, h]
          rw [progressValues_append, progressValues_status_cons,
            progressValues_ok_events, range_map_shift]
          simp [progressValues]
      | none =>
          simp only [resizerRun_none_eq, h]
          rw [progressValues_append, progressValues_status_cons,
            progressValues_ok_events, range_map_shift]
          simp [progressValues]

theorem progressValues_converter (fmt : String) (files : List String)
    (cres : List TaskResult)
    (hfmt : fmt ∈ format_settings_keys ∨ fmt = "Both") :
    progressValues (converterRun fmt files cres) =
      ((List.range (consumedOk cres)).map fun i => (i + 1) * 100 / files.length) ++
      (if firstFail cres = none then [100] else []) := by
  cases h : firstFail cres with
  | some m =>
      simp only [converterRun_eq fmt files cres hfmt, h]
      rw [progressValues_append, progressValues_status_cons,
        progressValues_ok_events, range_map_shift]
      simp [progressValues]
  | none =>
      simp only [converterRun_eq fmt files cres hfmt, h]
      rw [progressValues_append, progressValues_status_cons,
        progressValues_ok_events, range_map_shift]
      simp [progressValues]

theorem pct_le_100 (k t : Nat) (h : k ≤ t) : k * 100 / t ≤ 100 := by
  rcases Nat.eq_zero_or_pos t with h0 | h0
  · subst h0; simp
  · calc k * 100 / t ≤ t * 100 / t := Nat.div_le_div_right (Nat.mul_le_mul_right _ h)
      _ = 100 := Nat.mul_div_cancel_left _ h0

theorem pct_eq_100 (k t : Nat) (ht : 0 < t) (hk : k ≤ t) (h : k * 100 / t = 100) :
    k = t := by
  have h1 : 100 ≤ k * 100 / t := h.ge
  have h2 : 100 * t ≤ k * 100 := (Nat.le_div_iff_mul_le ht).1 h1
  have h3 : t ≤ k := by
    have : 100 * t ≤ 100 * k := by omega
    omega
  omega

/-- The shape every single-format (and icon) progress list takes, and its
consequences: sorted, bounded by 100, and containing 100 only when all
`t` tasks were consumed. -/
theorem pv_shape_props (t n : Nat) (P : Prop) [Decidable P] (hn : n ≤ t) :
    List.Pairwise (fun a b => a ≤ b)
      (((List.range n).map fun i => (i + 1) * 100 / t) ++
        (if P then [100] else [])) ∧
    (∀ v ∈ ((List.range n).map fun i => (i + 1) * 100 / t) ++
        (if P then [100] else []), v ≤ 100) ∧
    (100 ∈ ((List.range n).map fun i => (i + 1) * 100 / t) ++
        (if P then [100] else []) → P ∨ n = t) := by
  have hbound : ∀ v ∈ (List.range n).map fun i => (i + 1) * 100 / t, v ≤ 100 := by
    intro v hv
    rcases List.mem_map.1 hv with ⟨i, hi, rfl⟩
    have : i + 1 ≤ t := by
      have := List.mem_range.1 hi
      omega
    exact pct_le_100 _ _ this
  refine ⟨?_, ?_, ?_⟩
  · rw [List.pairwise_append]
    refine ⟨?_, ?_, ?_⟩
    · refine List.Pairwise.map _ (fun a b hab => ?_) (List.pairwise_lt_range n)
      exact Nat.div_le_div_right (Nat.mul_le_mul_right _ (by omega))
    · by_cases hP : P <;> simp [hP]
    · intro a ha b hb
      by_cases hP : P
      · simp only [if_pos hP, List.mem_singleton] at hb
        subst hb
        exact hbound a ha
      · simp [if_neg hP] at hb
  · intro v hv
    rcases List.mem_append.1 hv with h | h
    · exact hbound v h
    · by_cases hP : P
      · simp only [if_pos hP, List.mem_singleton] at h; omega
      · simp [if_neg hP] at h
  · intro hmem
    rcases List.mem_append.1 hmem with h | h
    · rcases List.mem_map.1 h with ⟨i, hi, hval⟩
      have hi' : i < n := List.mem_range.1 hi
      rcases Nat.eq_zero_or_pos t with h0 | h0
      · omega
      · right
        have := pct_eq_100 (i + 1) t h0 (by omega) hval
        omega
    · by_cases hP : P
      · exact Or.inl hP
      · simp [if_neg hP] at h

/-- C3 counterexample: in dual-format (`Both`) mode the converter divides the
completed-task counter by the number of files while two tasks per file were
submitted, so the progress trace of one file with two successful tasks is
`[100, 200, 100]`: a value exceeds 100 and the sequence is not monotone.
Moreover the resizer can emit Progress 100 and then terminate with an Error
when the manifest write fails, so 100 is not reached only on Finished runs. -/
theorem c3_progress_counterexample :
    progressValues (converterRun "Both" ["a.png"] [TaskResult.ok, TaskResult.ok]) =
      [100, 200, 100] ∧
    ¬ (∀ v ∈ progressValues (converterRun "Both" ["a.png"] [TaskResult.ok, TaskResult.ok]),
        v ≤ 100) ∧
    ¬ List.Pairwise (fun a b => a ≤ b)
        (progressValues (converterRun "Both" ["a.png"] [TaskResult.ok, TaskResult.ok])) ∧
    (100 ∈ progressValues (resizerRun none [16] [TaskResult.ok] (some "disk full")) ∧
      (resizerRun none [16] [TaskResult.ok] (some "disk full")).getLast? =
        some (Event.error ("Failed to create manifest.json: " ++ "disk full"))) := by
  refine ⟨by decide, by decide, by decide, by decide, by decide⟩

/-- C3 amended: for icon runs and single-format conversion runs, progress
values are monotonically non-decreasing and bounded by 100, the value 100 is
emitted only when all tasks completed successfully, and a run that ends with
Finished ends at Progress 100.  (Per the counterexample, dual-format runs
can exceed 100 and decrease, and an icon run can reach 100 and still end in
an Error when the manifest write fails.) -/
theorem c3_progress_amended
    (sizes : List Nat) (results : List TaskResult) (mErr : Option String)
    (hlen : results.length = sizes.length)
    (fmt : String) (files : List String) (cres : List TaskResult)
    (hfmt : fmt ∈ format_settings_keys) (hclen : cres.length = files.length) :
    (List.Pairwise (fun a b => a ≤ b)
        (progressValues (resizerRun none sizes results mErr)) ∧
      (∀ v ∈ progressValues (resizerRun none sizes results mErr), v ≤ 100) ∧
      (100 ∈ progressValues (resizerRun none sizes results mErr) →
        firstFail results = none) ∧
      ((resizerRun none sizes results mErr).getLast? = some Event.finished →
        (progressValues (resizerRun none sizes results mErr)).getLast? = some 100)) ∧
    (List.Pairwise (fun a b => a ≤ b) (progressValues (converterRun fmt files cres)) ∧
      (∀ v ∈ progressValues (converterRun fmt files cres), v ≤ 100) ∧
      (100 ∈ progressValues (converterRun fmt files cres) → firstFail cres = none) ∧
      ((converterRun fmt files cres).getLast? = some Event.finished →
        (progressValues (converterRun fmt files cres)).getLast? = some 100)) := by
  have hn : consumedOk results ≤ sizes.length := hlen ▸ consumedOk_le_length results
  have hnc : consumedOk cres ≤ files.length := hclen ▸ consumedOk_le_length cres
  obtain ⟨r1, r2, r3⟩ := pv_shape_props sizes.length (consumedOk results)
    (firstFail results = none ∧ mErr = none) hn
  obtain ⟨q1, q2, q3⟩ := pv_shape_props files.length (consumedOk cres)
    (firstFail cres = none) hnc
  constructor
  · refine ⟨?_, ?_, ?_, ?_⟩
    · rw [progressValues_resizer]; exact r1
    · rw [progressValues_resizer]; exact r2
    · rw [progressValues_resizer]
      intro hmem
      rcases r3 hmem with h | h
      · exact h.1
      · have : consumedOk results = results.length := by omega
        exact (consumedOk_eq_length_iff results).1 this
    · intro hfin
      cases h : firstFail results with
      | some m =>
          have hl : (resizerRun none sizes results mErr).getLast? =
              some (Event.error ("Failed to resize image: " ++ m)) := by
            rw [resizerRun_none_eq, h]
            exact List.getLast?_concat _
          rw [hl] at hfin
          simp at hfin
      | none =>
          cases mErr with
          | some e =>
              have hl : (resizerRun none sizes results (some e)).getLast? =
                  some (Event.error ("Failed to create manifest.json: " ++ e)) := by
                rw [resizerRun_none_eq, h]
                exact List.getLast?_concat _
              rw [hl] at hfin
              simp at hfin
          | none =>
              rw [progressValues_resizer, h]
              simp only [if_pos (And.intro rfl rfl)]
              exact List.getLast?_concat _
  · refine ⟨?_, ?_, ?_, ?_⟩
    · rw [progressValues_converter fmt files cres (Or.inl hfmt)]; exact q1
    · rw [progressValues_converter fmt files cres (Or.inl hfmt)]; exact q2
    · rw [progressValues_converter fmt files cres (Or.inl hfmt)]
      intro hmem
      rcases q3 hmem with h | h
      · exact h
      · have : consumedOk cres = cres.length := by omega
        exact (consumedOk_eq_length_iff cres).1 this
    · intro hfin
      cases h : firstFail cres with
      | some m =>
          have hl : (converterRun fmt files cres).getLast? = some (Event.error m) := by
            rw [converterRun_eq fmt files cres (Or.inl hfmt), h]
            exact List.getLast?_concat _
          rw [hl] at hfin
          simp at hfin
      | none =>
          rw [progressValues_converter fmt files cres (Or.inl hfmt), h]
          simp only [if_pos rfl]
          exact List.getLast?_concat _

/-- Witness for C3 amended at a concrete icon run and a concrete
single-format conversion run. -/
theorem c3_progress_amended_witness :
    (List.Pairwise (fun a b => a ≤ b)
        (progressValues (resizerRun none [16, 72] [TaskResult.ok, TaskResult.ok] none)) ∧
      (∀ v ∈ progressValues (resizerRun none [16, 72] [TaskResult.ok, TaskResult.ok] none),
        v ≤ 100) ∧
      (100 ∈ progressValues (resizerRun none [16, 72] [TaskResult.ok, TaskResult.ok] none) →
        firstFail [TaskResult.ok, TaskResult.ok] = none) ∧
      ((resizerRun none [16, 72] [TaskResult.ok, TaskResult.ok] none).getLast? =
          some Event.finished →
        (progressValues
          (resizerRun none [16, 72] [TaskResult.ok, TaskResult.ok] none)).getLast? =
          some 100)) ∧
    (List.Pairwise (fun a b => a ≤ b)
        (progressValues (converterRun "WebP" ["a.png"] [TaskResult.ok])) ∧
      (∀ v ∈ progressValues (converterRun "WebP" ["a.png"] [TaskResult.ok]), v ≤ 100) ∧
      (100 ∈ progressValues (converterRun "WebP" ["a.png"] [TaskResult.ok]) →
        firstFail [TaskResult.ok] = none) ∧
      ((converterRun "WebP" ["a.png"] [TaskResult.ok]).getLast? = some Event.finished →
        (progressValues (converterRun "WebP" ["a.png"] [TaskResult.ok])).getLast? =
          some 100)) :=
  c3_progress_amended [16, 72] [TaskResult.ok, TaskResult.ok] none (by decide)
    "WebP" ["a.png"] [TaskResult.ok] (by decide) (by decide)

/-- C9 counterexample: after the 2nd of 3 completions the resizer emits
`Progress(int(2/3*100)) = 66`, not `round(2/3*100) = 67`, and its status text
is "Generating icons: 2/3", never "2/3 processed"; in dual-format mode the
divisor is the file count (1), not the task count `numTasks "Both" 1 = 2`,
so the trace contains `Progress 200` where the claim's formula would give
`round(2/2*100) = 100`. -/
theorem c9_progress_formula_counterexample :
    resizerRun none [16, 72, 96] [TaskResult.ok, TaskResult.ok, TaskResult.ok] none =
      [Event.status "Loading image...",
       Event.progress 33, Event.status "Generating icons: 1/3",
       Event.progress 66, Event.status "Generating icons: 2/3",
       Event.progress 100, Event.status "Generating icons: 3/3",
       Event.status "All icons generated successfully!",
       Event.progress 100, Event.finished] ∧
    round_pct 2 3 = 67 ∧
    Event.progress 67 ∉
      resizerRun none [16, 72, 96] [TaskResult.ok, TaskResult.ok, TaskResult.ok] none ∧
    Event.status "2/3 processed" ∉
      resizerRun none [16, 72, 96] [TaskResult.ok, TaskResult.ok, TaskResult.ok] none ∧
    numTasks "Both" 1 = 2 ∧
    round_pct 2 (numTasks "Both" 1) = 100 ∧
    Event.progress 200 ∈ converterRun "Both" ["a.png"] [TaskResult.ok, TaskResult.ok] ∧
    Event.status "2/2 processed" ∉
      converterRun "Both" ["a.png"] [TaskResult.ok, TaskResult.ok] := by
  refine ⟨by decide, ?_, by decide, by decide, by decide, ?_, by decide, by decide⟩
  · unfold round_pct
    rw [round_eq]
    norm_num
  · have h2 : numTasks "Both" 1 = 2 := by decide
    rw [h2]
    unfold round_pct
    rw [round_eq]
    norm_num

/-- C9 amended: after the k-th task completion (in completion order) the
resizer emits `Progress(int(k/N*100))` (floor, not round, with N the number
of sizes) and `Status("Generating icons: k/N")`, and the converter emits
`Progress(int(k/T*100))` and `Status("Converting files: k/T")` with T the
number of source FILES (not files times format variants); `ok_events`
spells out those event pairs, and the tail after the last consumed result is
the single wrapped error, or the success epilogue. -/
theorem c9_progress_formula_amended
    (sizes : List Nat) (results : List TaskResult) (mErr : Option String)
    (fmt : String) (files : List String) (cres : List TaskResult)
    (hfmt : fmt ∈ format_settings_keys ∨ fmt = "Both") :
    resizerRun none sizes results mErr =
      Event.status "Loading image..." ::
        ok_events sizes.length "Generating icons: " 0 (consumedOk results) ++
        (match firstFail results with
         | some m => [Event.error ("Failed to resize image: " ++ m)]
         | none =>
             match mErr with
             | some e => [Event.error ("Failed to create manifest.json: " ++ e)]
             | none =>
                 [Event.status "All icons generated successfully!",
                  Event.progress 100, Event.finished]) ∧
    converterRun fmt files cres =
      Event.status "Preparing to convert..." ::
        ok_events files.length "Converting files: " 0 (consumedOk cres) ++
        (match firstFail cres with
         | some m => [Event.error m]
         | none =>
             [Event.status ("Successfully converted " ++ toString cres.length ++ " files!"),
              Event.progress 100, Event.finished]) :=
  ⟨resizerRun_none_eq sizes results mErr, converterRun_eq fmt files cres hfmt⟩

/-- Witness for C9 amended at a dual-format converter run (divisor 1 with
two tasks) and a two-size icon run. -/
theorem c9_progress_formula_amended_witness :
    resizerRun none [16, 72] [TaskResult.ok, TaskResult.fail "x"] none =
      Event.status "Loading image..." ::
        ok_events 2 "Generating icons: " 0
          (consumedOk [TaskResult.ok, TaskResult.fail "x"]) ++
        [Event.error ("Failed to resize image: " ++ "x")] ∧
    converterRun "Both" ["a.png"] [TaskResult.ok, TaskResult.ok] =
      Event.status "Preparing to convert..." ::
        ok_events 1 "Converting files: " 0
          (consumedOk [TaskResult.ok, TaskResult.ok]) ++
        [Event.status ("Successfully converted " ++
           toString ([TaskResult.ok, TaskResult.ok] : List TaskResult).length ++ " files!"),
         Event.progress 100, Event.finished] :=
  c9_progress_formula_amended [16, 72] [TaskResult.ok, TaskResult.fail "x"] none
    "Both" ["a.png"] [TaskResult.ok, TaskResult.ok] (Or.inr rfl)

/-! ## Icon output counting -/

theorem isFavicon_resize_image (dir : String) (img : Raster) (s : Nat) :
    isFavicon (resize_image dir img s) = decide (s = 16) := by
  by_cases h : s = 16 <;> simp [resize_image, isFavicon, h]

theorem isPngArtifact_resize_image (dir : String) (img : Raster) (s : Nat) :
    isPngArtifact (resize_image dir img s) = !decide (s = 16) := by
  by_cases h : s = 16 <;> simp [resize_image, isPngArtifact, h]

theorem countP_favicon (dir : String) (img : Raster) (S : List Nat) :
    (iconOutputs dir img S).countP isFavicon = S.count 16 := by
  unfold iconOutputs
  rw [List.countP_map]
  have h : S.countP (isFavicon ∘ resize_image dir img) = S.countP (· == 16) := by
    apply List.countP_congr
    intro x _
    simp [Function.comp, isFavicon_resize_image]
  rw [h]
  rfl

theorem countP_png (dir : String) (img : Raster) (S : List Nat) :
    (iconOutputs dir img S).countP isPngArtifact =
      S.length - S.count 16 := by
  unfold iconOutputs
  rw [List.countP_map]
  have h : S.countP (isPngArtifact ∘ resize_image dir img) =
      S.countP (fun x => !decide (x = 16)) := by
    apply List.countP_congr
    intro x _
    simp [Function.comp, isPngArtifact_resize_image]
  rw [h]
  have hlen := List.length_eq_countP_add_countP (fun x : Nat => decide (x = 16)) S
  have e1 : S.countP (fun a => decide (¬ (decide (a = 16) = true))) =
      S.countP (fun x => !decide (x = 16)) := by
    apply List.countP_congr
    intro x _
    simp
  have e2 : S.countP (fun x : Nat => decide (x = 16)) = S.count 16 := by
    apply List.countP_congr
    intro x _
    simp
  rw [e1, e2] at hlen
  omega

/-- C2 counterexample: the icon job with the non-empty size sequence
`S = [72]` completes with Finished, yet produces no favicon artifact, one
(not `|S|-1 = 0`) size-named PNG, and a manifest with one (not 0) icon
entry: the favicon branch triggers on the literal size 16, not on the
smallest size of `S`. -/
theorem c2_icon_outputs_counterexample :
    (resizerRun none [72] [TaskResult.ok] none).getLast? = some Event.finished ∧
    (iconOutputs "out" ⟨100, 100, "RGB"⟩ [72]).countP isFavicon = 0 ∧
    (iconOutputs "out" ⟨100, 100, "RGB"⟩ [72]).countP isPngArtifact = 1 ∧
    ([72] : List Nat).length - 1 = 0 ∧
    (manifest_icons [72]).length = 1 := by
  refine ⟨by decide, by decide, by decide, by decide, by decide⟩

/-- C2 amended: for every icon job whose duplicate-free size sequence `S`
contains 16 (as the default configuration [16,72,…,512] does), the outputs
are exactly one favicon artifact — for the literal size 16, encoded as an
ICO container in RGBA, not a size-named PNG — plus `|S|-1` PNGs named
`icon-<s>x<s>.png` by their exact pixel sizes, and the manifest icon array
has `|S|-1` entries whose `sizes` strings match the PNG dimensions 1:1. -/
theorem c2_icon_outputs_amended (dir : String) (img : Raster) (S : List Nat)
    (h16 : (16 : Nat) ∈ S) (hnd : S.Nodup) :
    (iconOutputs dir img S).countP isFavicon = 1 ∧
    (iconOutputs dir img S).countP isPngArtifact = S.length - 1 ∧
    (∀ a ∈ iconOutputs dir img S, isFavicon a = true →
      a = { path := dir ++ "/favicon.ico", format := "ICO",
            width := 16, height := 16, mode := "RGBA" }) ∧
    (∀ a ∈ iconOutputs dir img S, isPngArtifact a = true →
      ∃ s ∈ S, s ≠ 16 ∧
        a = { path := dir ++ "/icon-" ++ toString s ++ "x" ++ toString s ++ ".png",
              format := "PNG", width := s, height := s, mode := img.mode }) ∧
    (manifest_icons S).length = S.length - 1 ∧
    (manifest_icons S).map (fun mi => mi.sizes) =
      ((iconOutputs dir img S).filter isPngArtifact).map
        (fun a => toString a.width ++ "x" ++ toString a.height) := by
  have hc1 : S.count 16 = 1 := List.count_eq_one_of_mem hnd h16
  refine ⟨?_, ?_, ?_, ?_, ?_, ?_⟩
  · rw [countP_favicon, hc1]
  · rw [countP_png, hc1]
  · intro a ha hf
    rcases List.mem_map.1 ha with ⟨s, _, rfl⟩
    by_cases h : s = 16
    · subst h; simp [resize_image]
    · rw [isFavicon_resize_image] at hf
      simp [h] at hf
  · intro a ha hp
    rcases List.mem_map.1 ha with ⟨s, hs, rfl⟩
    by_cases h : s = 16
    · subst h
      rw [isPngArtifact_resize_image] at hp
      simp at hp
    · exact ⟨s, hs, h, by simp [resize_image, h]⟩
  · unfold manifest_icons
    rw [List.length_map, ← List.countP_eq_length_filter]
    have e3 : S.countP (fun s => decide (s ≠ 16)) =
        S.countP (fun x => !decide (x = 16)) := by
      apply List.countP_congr
      intro x _
      simp
    have hlen := List.length_eq_countP_add_countP (fun x : Nat => decide (x = 16)) S
    have e1 : S.countP (fun a => decide (¬ (decide (a = 16) = true))) =
        S.countP (fun x => !decide (x = 16)) := by
      apply List.countP_congr
      intro x _
      simp
    have e2 : S.countP (fun x : Nat => decide (x = 16)) = S.count 16 := by
      apply List.countP_congr
      intro x _
      simp
    rw [e3]
    rw [e1, e2] at hlen
    omega
  · unfold manifest_icons iconOutputs
    rw [List.map_map, List.filter_map, List.map_map]
    have hfilter : S.filter (isPngArtifact ∘ resize_image dir img) =
        S.filter (fun s => decide (s ≠ 16)) := by
      apply List.filter_congr
      intro x _
      simp [Function.comp, isPngArtifact_resize_image]
    rw [hfilter]
    apply List.map_congr_left
    intro s hs
    have hsne : s ≠ 16 := by
      have := (List.mem_filter.1 hs).2
      simpa using this
    simp [Function.comp, resize_image, hsne]

/-- Witness for C2 amended at the sizes `[16, 72]`. -/
theorem c2_icon_outputs_amended_witness :
    (iconOutputs "out" ⟨100, 100, "RGB"⟩ [16, 72]).countP isFavicon = 1 ∧
    (iconOutputs "out" ⟨100, 100, "RGB"⟩ [16, 72]).countP isPngArtifact =
      ([16, 72] : List Nat).length - 1 ∧
    (∀ a ∈ iconOutputs "out" ⟨100, 100, "RGB"⟩ [16, 72], isFavicon a = true →
      a = { path := "out" ++ "/favicon.ico", format := "ICO",
            width := 16, height := 16, mode := "RGBA" }) ∧
    (∀ a ∈ iconOutputs "out" ⟨100, 100, "RGB"⟩ [16, 72], isPngArtifact a = true →
      ∃ s ∈ ([16, 72] : List Nat), s ≠ 16 ∧
        a = { path := "out" ++ "/icon-" ++ toString s ++ "x" ++ toString s ++ ".png",
              format := "PNG", width := s, height := s,
              mode := (Raster.mk 100 100 "RGB").mode }) ∧
    (manifest_icons [16, 72]).length = ([16, 72] : List Nat).length - 1 ∧
    (manifest_icons [16, 72]).map (fun mi => mi.sizes) =
      ((iconOutputs "out" ⟨100, 100, "RGB"⟩ [16, 72]).filter isPngArtifact).map
        (fun a => toString a.width ++ "x" ++ toString a.height) :=
  c2_icon_outputs_amended "out" ⟨100, 100, "RGB"⟩ [16, 72] (by decide) (by decide)

/-! ## Aspect-locked resize arithmetic -/

theorem floor_div_div_eq (a b c : Nat) (hb : 0 < b) (hc : 0 < c) :
    (⌊(a : ℚ) / ((b : ℚ) / (c : ℚ))⌋).toNat = a * c / b := by
  have hb' : (b : ℚ) ≠ 0 := Nat.cast_ne_zero.2 hb.ne'
  have hc' : (c : ℚ) ≠ 0 := Nat.cast_ne_zero.2 hc.ne'
  have h : (a : ℚ) / ((b : ℚ) / (c : ℚ)) = ((a * c : ℕ) : ℚ) / ((b : ℕ) : ℚ) := by
    push_cast
    field_simp
  rw [h, Int.floor_toNat, Nat.floor_div_eq_div]

theorem floor_mul_div_eq (a b c : Nat) :
    (⌊(a : ℚ) * ((b : ℚ) / (c : ℚ))⌋).toNat = a * b / c := by
  have h : (a : ℚ) * ((b : ℚ) / (c : ℚ)) = ((a * b : ℕ) : ℚ) / ((c : ℕ) : ℚ) := by
    push_cast
    ring
  rw [h, Int.floor_toNat, Nat.floor_div_eq_div]

/-- Closed Nat form of the aspect-locked resize: landscape sources get width
`Tw` and truncated height `Tw*H/W`; portrait or square sources get height
`Th` and truncated width `Th*W/H`. -/
theorem convert_resize_keep (W H Tw Th : Nat) (mode : String)
    (hW : 0 < W) (hH : 0 < H) :
    convert_resize (some ⟨Tw, Th, true⟩) ⟨W, H, mode⟩ =
      if H < W then ⟨Tw, Tw * H / W, mode⟩ else ⟨Th * W / H, Th, mode⟩ := by
  by_cases h : H < W
  · simp [convert_resize, h, floor_div_div_eq Tw W H hW hH]
  · simp [convert_resize, h, floor_mul_div_eq Th W H]

/-- A WebP conversion saves exactly the (possibly resized) raster, so its
final dimensions are those `convert_resize` yields. -/
theorem gui_final_dims_webp (q : Nat) (rs : Option ResizeSettings)
    (dir base : String) (img : Raster) (rm : Bool) :
    final_dims (gui_convert_file "WebP" q rs dir base img rm) =
      ((convert_resize rs img).width, (convert_resize rs img).height) := by
  simp [gui_convert_file, final_dims, String.reduceEq]

theorem workers_final_dims_webp (rs : Option ResizeSettings)
    (dir base : String) (img : Raster) :
    final_dims (workers_convert_file "WebP" rs dir base img) =
      ((convert_resize rs img).width, (convert_resize rs img).height) := by
  simp [workers_convert_file, final_dims, String.reduceEq]

/-- C4 counterexample: for a landscape 8×2 source resized aspect-locked to
target 27×27 the code truncates `27/(8/2) = 6.75` to height 6 where the
claim's formula rounds to 7; for a portrait 2×4 source with target 100×90
the code derives width `int(90*(2/4)) = 45` where the claim's inverted
formula `round(90*(4/2))` gives 180. -/
theorem c4_aspect_resize_counterexample :
    final_dims (gui_convert_file "WebP" 80 (some ⟨27, 27, true⟩) "out" "a"
      ⟨8, 2, "RGB"⟩ true) = (27, 6) ∧
    spec_aspect_dims 8 2 27 27 = (27, 7) ∧
    final_dims (gui_convert_file "WebP" 80 (some ⟨100, 90, true⟩) "out" "a"
      ⟨2, 4, "RGB"⟩ true) = (45, 90) ∧
    spec_aspect_dims 2 4 100 90 = (180, 90) ∧
    (6 : Nat) ≠ 7 ∧ (45 : Nat) ≠ 180 := by
  refine ⟨?_, ?_, ?_, ?_, by decide, by decide⟩
  · rw [gui_final_dims_webp,
      convert_resize_keep 8 2 27 27 "RGB" (by norm_num) (by norm_num)]
    norm_num
  · unfold spec_aspect_dims
    rw [if_pos (by norm_num), round_eq]
    norm_num
    decide
  · rw [gui_final_dims_webp,
      convert_resize_keep 2 4 100 90 "RGB" (by norm_num) (by norm_num)]
    norm_num
  · unfold spec_aspect_dims
    rw [if_neg (by norm_num), round_eq]
    norm_num
    decide

/-- C4 amended: in both convert_file implementations, aspect-locked resize
gives a landscape source (W>H) output width Tw and output height
`int(Tw/(W/H))` = `Tw*H/W` truncated (not rounded); otherwise output height
Th and output width `int(Th*(W/H))` = `Th*W/H` truncated (the ratio
multiplies the fixed height by W/H, not H/W as the claim states). -/
theorem c4_aspect_resize_amended (W H Tw Th q : Nat) (dir base mode : String)
    (rm : Bool) (hW : 0 < W) (hH : 0 < H) :
    final_dims (gui_convert_file "WebP" q (some ⟨Tw, Th, true⟩) dir base
        ⟨W, H, mode⟩ rm) =
      (if H < W then (Tw, Tw * H / W) else (Th * W / H, Th)) ∧
    final_dims (workers_convert_file "WebP" (some ⟨Tw, Th, true⟩) dir base
        ⟨W, H, mode⟩) =
      (if H < W then (Tw, Tw * H / W) else (Th * W / H, Th)) := by
  rw [gui_final_dims_webp, workers_final_dims_webp,
    convert_resize_keep W H Tw Th mode hW hH]
  constructor <;> (by_cases h : H < W <;> simp [h])

/-- Witness for C4 amended on an 8×2 landscape source and target 27×27. -/
theorem c4_aspect_resize_amended_witness :
    final_dims (gui_convert_file "WebP" 80 (some ⟨27, 27, true⟩) "out" "a"
        ⟨8, 2, "RGB"⟩ true) =
      (if 2 < 8 then (27, 27 * 2 / 8) else (27 * 8 / 2, 27)) ∧
    final_dims (workers_convert_file "WebP" (some ⟨27, 27, true⟩) "out" "a"
        ⟨8, 2, "RGB"⟩) =
      (if 2 < 8 then (27, 27 * 2 / 8) else (27 * 8 / 2, 27)) :=
  c4_aspect_resize_amended 8 2 27 27 80 "out" "a" "RGB" true
    (by norm_num) (by norm_num)

/-- C5 amended: in the legacy gui worker an AVIF conversion whose (possibly
resized) dimensions are not both multiples of 8 is padded up to the next
multiples of 8, encoded to the temp file `<output>.tmp`, cropped back to the
pre-pad dimensions for the final save, and the temp file's removal is
best-effort (the saves are independent of whether removal succeeds); with
aligned dimensions it is saved directly.  Consequently every gui conversion
without a resize spec preserves the source dimensions, for all four formats.
The modular worker instead downscales to multiples of 8 and saves once, with
no temp file and no crop-back (see the counterexample). -/
theorem c5_avif_pad_crop_amended (q : Nat) (dir base : String) (img : Raster)
    (rm : Bool) :
    (img.width % 8 ≠ 0 ∨ img.height % 8 ≠ 0 →
      gui_convert_file "AVIF" q none dir base img rm =
        { saves :=
            [{ path := dir ++ "/" ++ base ++ ".avif" ++ ".tmp", format := "AVIF",
               quality := some q, width := (img.width + 7) / 8 * 8,
               height := (img.height + 7) / 8 * 8, mode := img.mode },
             { path := dir ++ "/" ++ base ++ ".avif", format := "AVIF",
               quality := some q, width := img.width, height := img.height,
               mode := img.mode }],
          temp_created := some (dir ++ "/" ++ base ++ ".avif" ++ ".tmp"),
          temp_removed := rm }) ∧
    (img.width % 8 = 0 ∧ img.height % 8 = 0 →
      gui_convert_file "AVIF" q none dir base img rm =
        { saves := [{ path := dir ++ "/" ++ base ++ ".avif", format := "AVIF",
                      quality := some q, width := img.width, height := img.height,
                      mode := img.mode }] }) ∧
    (∀ fmt ∈ format_settings_keys, ∀ rm' : Bool,
      final_dims (gui_convert_file fmt q none dir base img rm') =
        (img.width, img.height)) ∧
    (∀ fmt rs, ∀ rm' : Bool,
      (gui_convert_file fmt q rs dir base img rm').saves =
        (gui_convert_file fmt q rs dir base img true).saves) := by
  refine ⟨?_, ?_, ?_, ?_⟩
  · intro h
    have hpad : (img.width + 7) / 8 * 8 ≠ img.width ∨
        (img.height + 7) / 8 * 8 ≠ img.height := by omega
    simp [gui_convert_file, convert_resize, String.reduceEq, hpad]
  · intro h
    have h1 : (img.width + 7) / 8 * 8 = img.width := by omega
    have h2 : (img.height + 7) / 8 * 8 = img.height := by omega
    simp [gui_convert_file, convert_resize, String.reduceEq, h1, h2]
  · intro fmt hfmt rm'
    have hcases : fmt = "WebP" ∨ fmt = "JPEG" ∨ fmt = "PNG" ∨ fmt = "AVIF" := by
      simpa [format_settings_keys] using hfmt
    rcases hcases with rfl | rfl | rfl | rfl
    · simp [gui_convert_file, convert_resize, final_dims, String.reduceEq]
    · by_cases hmode : img.mode = "RGBA" <;>
        simp [gui_convert_file, convert_resize, final_dims, String.reduceEq, hmode]
    · simp [gui_convert_file, convert_resize, final_dims, String.reduceEq]
    · by_cases hpad : (img.width + 7) / 8 * 8 ≠ img.width ∨
          (img.height + 7) / 8 * 8 ≠ img.height
      · simp [gui_convert_file, convert_resize, final_dims, String.reduceEq, hpad]
      · have h1 : (img.width + 7) / 8 * 8 = img.width := by omega
        have h2 : (img.height + 7) / 8 * 8 = img.height := by omega
        simp [gui_convert_file, convert_resize, final_dims, String.reduceEq, h1, h2]
  · intro fmt rs rm'
    by_cases h1 : fmt = "AVIF"
    · subst h1
      by_cases hpad : ((convert_resize rs img).width + 7) / 8 * 8 ≠
            (convert_resize rs img).width ∨
          ((convert_resize rs img).height + 7) / 8 * 8 ≠
            (convert_resize rs img).height
      · simp [gui_convert_file, String.reduceEq, hpad]
      · simp [gui_convert_file, String.reduceEq, hpad]
    · simp [gui_convert_file, h1]

/-- C5 counterexample: the modular worker's AVIF conversion of a 100×100
source without a resize spec downscales to 96×96 and saves exactly once —
no temp file, no crop back to the source dimensions — so the final output
dimensions differ from the source dimensions. -/
theorem c5_avif_pad_crop_counterexample :
    workers_convert_file "AVIF" none "o" "img" ⟨100, 100, "RGB"⟩ =
      { saves := [{ path := "o" ++ "/" ++ "img" ++ ".avif", format := "AVIF",
                    quality := some 100, width := 96, height := 96,
                    mode := "RGB" }] } ∧
    final_dims (workers_convert_file "AVIF" none "o" "img" ⟨100, 100, "RGB"⟩) =
      (96, 96) ∧
    (workers_convert_file "AVIF" none "o" "img" ⟨100, 100, "RGB"⟩).temp_created =
      none ∧
    (workers_convert_file "AVIF" none "o" "img" ⟨100, 100, "RGB"⟩).saves.length = 1 ∧
    ((96, 96) : Nat × Nat) ≠ (100, 100) := by
  have hr : roundHalfEven (96 : ℚ) = 96 := by
    unfold roundHalfEven
    norm_num
  have hmain : workers_convert_file "AVIF" none "o" "img" ⟨100, 100, "RGB"⟩ =
      { saves := [{ path := "o" ++ "/" ++ "img" ++ ".avif", format := "AVIF",
                    quality := some 100, width := 96, height := 96,
                    mode := "RGB" }] } := by
    simp [workers_convert_file, convert_resize, String.reduceEq]
    norm_num [hr]
    decide
  refine ⟨hmain, ?_, ?_, ?_, by decide⟩ <;> rw [hmain] <;> rfl

/-- Witness for C5 amended at a 100×100 source (not a multiple of 8). -/
theorem c5_avif_pad_crop_amended_witness :
    gui_convert_file "AVIF" 70 none "o" "img" ⟨100, 100, "RGB"⟩ true =
      { saves :=
          [{ path := "o" ++ "/" ++ "img" ++ ".avif" ++ ".tmp", format := "AVIF",
             quality := some 70, width := (100 + 7) / 8 * 8,
             height := (100 + 7) / 8 * 8, mode := "RGB" },
           { path := "o" ++ "/" ++ "img" ++ ".avif", format := "AVIF",
             quality := some 70, width := 100, height := 100, mode := "RGB" }],
        temp_created := some ("o" ++ "/" ++ "img" ++ ".avif" ++ ".tmp"),
        temp_removed := true } ∧
    final_dims (gui_convert_file "PNG" 70 none "o" "img" ⟨100, 100, "RGB"⟩ false) =
      (100, 100) ∧
    (gui_convert_file "AVIF" 70 none "o" "img" ⟨100, 100, "RGB"⟩ false).saves =
      (gui_convert_file "AVIF" 70 none "o" "img" ⟨100, 100, "RGB"⟩ true).saves := by
  obtain ⟨h1, _, h3, h4⟩ :=
    c5_avif_pad_crop_amended 70 "o" "img" ⟨100, 100, "RGB"⟩ true
  refine ⟨h1 (by decide), ?_, ?_⟩
  · have := c5_avif_pad_crop_amended 70 "o" "img" ⟨100, 100, "RGB"⟩ false
    exact this.2.2.1 "PNG" (by decide) false
  · exact (c5_avif_pad_crop_amended 70 "o" "img" ⟨100, 100, "RGB"⟩ false).2.2.2
      "AVIF" none false

/-! ## PNG compression level and quality pass-through -/

theorem png_level_floor (q : Nat) :
    (⌊(q : ℚ) / (111 / 10 : ℚ)⌋ : ℤ) = ((10 * q / 111 : ℕ) : ℤ) := by
  have h : (q : ℚ) / (111 / 10 : ℚ) = ((10 * q : ℕ) : ℚ) / ((111 : ℕ) : ℚ) := by
    push_cast
    ring
  have h0 : (0 : ℚ) ≤ ((10 * q : ℕ) : ℚ) / ((111 : ℕ) : ℚ) := by positivity
  rw [h, ← Int.natCast_floor_eq_floor h0, Nat.floor_div_eq_div]

/-- C6: a gui PNG conversion with caller-supplied quality `q` invokes the
encoder with compression level `clamp(9 - floor(q/11.1), 0, 9)` (with
`floor(q/11.1) = 10*q/111` exactly); in particular quality 100 gives level
0, and the modular worker's PNG path — which exposes no quality parameter
and hard-codes 100 — always computes level 0. -/
theorem c6_png_compression_level (q : Nat) (h1 : 1 ≤ q) (h2 : q ≤ 100)
    (rs : Option ResizeSettings) (dir base : String) (img : Raster) (rm : Bool) :
    ((gui_convert_file "PNG" q rs dir base img rm).saves.map
        fun sc => sc.compress_level) =
      [some (min 9 (max 0 (9 - ((10 * q / 111 : ℕ) : ℤ))))] ∧
    (q = 100 →
      ((gui_convert_file "PNG" q rs dir base img rm).saves.map
          fun sc => sc.compress_level) = [some 0]) ∧
    ((workers_convert_file "PNG" rs dir base img).saves.map
        fun sc => sc.compress_level) = [some 0] := by
  have main : ((gui_convert_file "PNG" q rs dir base img rm).saves.map
      fun sc => sc.compress_level) =
      [some (min 9 (max 0 (9 - ((10 * q / 111 : ℕ) : ℤ))))] := by
    simp [gui_convert_file, String.reduceEq, png_level_floor]
  refine ⟨main, ?_, ?_⟩
  · intro hq
    subst hq
    rw [main]
    decide
  · have hf : (⌊(100 : ℚ) / (111 / 10 : ℚ)⌋ : ℤ) = 9 := by norm_num
    simp [workers_convert_file, String.reduceEq, hf]

/-- Witness for C6 at quality 100. -/
theorem c6_png_compression_level_witness :
    ((gui_convert_file "PNG" 100 none "o" "a" ⟨10, 10, "RGB"⟩ true).saves.map
        fun sc => sc.compress_level) =
      [some (min 9 (max 0 (9 - ((10 * 100 / 111 : ℕ) : ℤ))))] ∧
    (100 = 100 →
      ((gui_convert_file "PNG" 100 none "o" "a" ⟨10, 10, "RGB"⟩ true).saves.map
          fun sc => sc.compress_level) = [some 0]) ∧
    ((workers_convert_file "PNG" none "o" "a" ⟨10, 10, "RGB"⟩).saves.map
        fun sc => sc.compress_level) = [some 0] :=
  c6_png_compression_level 100 (by decide) (by decide) none "o" "a"
    ⟨10, 10, "RGB"⟩ true

/-- C7 counterexample: the modular worker's WebP conversion invokes the
encoder with the hard-coded quality 100 — its constructor exposes no quality
parameter at all — so at the UI's configured quality 80 (passed through
faithfully by the legacy gui worker) the claim fails. -/
theorem c7_quality_passthrough_counterexample :
    final_quality (workers_convert_file "WebP" none "o" "a" ⟨64, 64, "RGB"⟩) =
      some 100 ∧
    final_quality (gui_convert_file "WebP" 80 none "o" "a" ⟨64, 64, "RGB"⟩ true) =
      some 80 ∧
    some (100 : Nat) ≠ some (80 : Nat) := by
  refine ⟨?_, ?_, by decide⟩ <;>
    simp [workers_convert_file, gui_convert_file, convert_resize, final_quality,
      String.reduceEq]

/-- C7 amended: every WebP or JPEG conversion task of the legacy gui worker
invokes the encoder with exactly the caller-supplied quality (1..100)
unchanged; the modular worker always invokes it with the hard-coded
quality 100. -/
theorem c7_quality_passthrough_amended (q : Nat) (h1 : 1 ≤ q) (h2 : q ≤ 100)
    (fmt : String) (hf : fmt = "WebP" ∨ fmt = "JPEG")
    (rs : Option ResizeSettings) (dir base : String) (img : Raster) (rm : Bool) :
    final_quality (gui_convert_file fmt q rs dir base img rm) = some q ∧
    final_quality (workers_convert_file fmt rs dir base img) = some 100 := by
  rcases hf with rfl | rfl
  · constructor <;>
      simp [gui_convert_file, workers_convert_file, final_quality, String.reduceEq]
  · constructor <;>
      simp [gui_convert_file, workers_convert_file, final_quality, String.reduceEq]

/-- Witness for C7 amended at quality 80 for JPEG. -/
theorem c7_quality_passthrough_amended_witness :
    final_quality (gui_convert_file "JPEG" 80 none "o" "a" ⟨64, 64, "RGBA"⟩ true) =
      some 80 ∧
    final_quality (workers_convert_file "JPEG" none "o" "a" ⟨64, 64, "RGBA"⟩) =
      some 100 :=
  c7_quality_passthrough_amended 80 (by decide) (by decide) "JPEG" (Or.inr rfl)
    none "o" "a" ⟨64, 64, "RGBA"⟩ true

/-! ## Open-failure behavior -/

theorem error_converting_ne_failed_open (d : String) :
    ("Failed to open image: " ++ d) ≠
      "Error converting bad.png: cannot identify image file" := by
  intro heq
  have hd : ("Failed to open image: " : String).data ++ d.data =
      ("Error converting bad.png: cannot identify image file" : String).data := by
    rw [← String.data_append, heq]
  have hF : ("Failed to open image: " : String).data =
      'F' :: ("ailed to open image: " : String).data := by decide
  have hE : ("Error converting bad.png: cannot identify image file" : String).data =
      'E' :: ("rror converting bad.png: cannot identify image file" : String).data := by
    decide
  rw [hF, hE, List.cons_append] at hd
  have : ('F' : Char) = 'E' := (List.cons_eq_cons.1 hd).1
  exact absurd this (by decide)

/-- C8 counterexample: a conversion job with an unopenable source emits
`Status("Preparing to convert...")` and then `Error("Error converting
<basename>: <detail>")` — the open failure is detected inside the started
task, and no event of the form `Error("Failed to open image: <detail>")` is
ever emitted. -/
theorem c8_open_failure_counterexample :
    converterRun "WebP" ["bad.png"]
        [convert_task_result "bad.png" (Except.error "cannot identify image file")] =
      [Event.status "Preparing to convert...",
       Event.error ("Error converting " ++ "bad.png" ++ ": " ++
         "cannot identify image file")] ∧
    (∀ d : String,
      Event.error ("Failed to open image: " ++ d) ∉
        converterRun "WebP" ["bad.png"]
          [convert_task_result "bad.png"
            (Except.error "cannot identify image file")]) := by
  have htr : converterRun "WebP" ["bad.png"]
      [convert_task_result "bad.png" (Except.error "cannot identify image file")] =
      [Event.status "Preparing to convert...",
       Event.error ("Error converting " ++ "bad.png" ++ ": " ++
         "cannot identify image file")] := by decide
  refine ⟨htr, ?_⟩
  intro d hmem
  rw [htr] at hmem
  rcases List.mem_cons.1 hmem with h | h
  · exact absurd h (by simp)
  · rcases List.mem_singleton.1 h with h2
    have hstr : ("Failed to open image: " ++ d) =
        "Error converting bad.png: cannot identify image file" := by
      have := Event.error.inj h2
      simpa using this
    exact error_converting_ne_failed_open d hstr

/-- C8 amended: only the icon worker validates the source up front — on an
open failure it emits exactly one event, `Error("Failed to open image:
<detail>")`, with no task consumed and no Progress or Status at all.  The
converter starts its tasks without validation: an unopenable source is
caught inside the task, and (when its failure is the first consumed result)
the run emits `Status("Preparing to convert...")` followed by
`Error("Error converting <basename>: <detail>")`. -/
theorem c8_open_failure_amended
    (d : String) (sizes : List Nat) (results : List TaskResult)
    (mErr : Option String) (fmt : String)
    (hfmt : fmt ∈ format_settings_keys ∨ fmt = "Both")
    (files : List String) (base detail : String) (rest : List TaskResult) :
    resizerRun (some d) sizes results mErr =
      [Event.error ("Failed to open image: " ++ d)] ∧
    (∀ e ∈ resizerRun (some d) sizes results mErr, isTerminal e = true) ∧
    converterRun fmt files
        (convert_task_result base (Except.error detail) :: rest) =
      [Event.status "Preparing to convert...",
       Event.error ("Error converting " ++ base ++ ": " ++ detail)] := by
  refine ⟨rfl, ?_, ?_⟩
  · intro e he
    rcases List.mem_singleton.1 he with rfl
    rfl
  · have hguard : ¬(files.length ≠ 0 ∧ fmt ≠ "Both" ∧
        fmt ∉ format_settings_keys) := by
      rcases hfmt with h | h
      · intro hc; exact hc.2.2 h
      · intro hc; exact hc.2.1 h
    simp only [converterRun, if_neg hguard]
    simp [convert_task_result, consume_loop]

/-- Witness for C8 amended at a concrete open failure. -/
theorem c8_open_failure_amended_witness :
    resizerRun (some "no such file") [16, 72] [] none =
      [Event.error ("Failed to open image: " ++ "no such file")] ∧
    (∀ e ∈ resizerRun (some "no such file") [16, 72] [] none,
      isTerminal e = true) ∧
    converterRun "WebP" ["bad.png"]
        (convert_task_result "bad.png" (Except.error "unreadable") :: []) =
      [Event.status "Preparing to convert...",
       Event.error ("Error converting " ++ "bad.png" ++ ": " ++ "unreadable")] :=
  c8_open_failure_amended "no such file" [16, 72] [] none "WebP" (Or.inl (by decide))
    ["bad.png"] "bad.png" "unreadable" []

/-! ## The broken ImageConverterWorker construction -/

/-- C10 counterexample: `start_conversion` passes five positional arguments
while `ImageConverterWorker.__init__` accepts at most four, so binding
raises `TypeError` — the worker is never constructed.  In particular the
quality value does NOT land in `resize_settings`: no binding of the call
exists at all, `run` is never invoked and no Error event is emitted. -/
theorem c10_converter_ctor_counterexample :
    converter_init_bind
        (main_window_convert_call ["a.png"] "out" "WebP" 80 PyValue.vnone) =
      Except.error "TypeError: __init__ takes from 4 to 5 positional arguments" ∧
    (∀ st : ConverterWorkerState,
      converter_init_bind
          (main_window_convert_call ["a.png"] "out" "WebP" 80 PyValue.vnone) ≠
        Except.ok st) := by
  refine ⟨rfl, ?_⟩
  intro st h
  simp [converter_init_bind, main_window_convert_call] at h

/-- C10 amended: the `main_window.py` call always passes five positional
arguments to a constructor accepting three required plus one optional, so
construction raises `TypeError` before `run` could ever execute — the run
emits neither Error nor Finished because there is no run.  A successful
binding requires at most four arguments, and only a four-argument call would
place its fourth value (the quality integer) into `resize_settings` as the
claim describes. -/
theorem c10_converter_ctor_amended
    (files : List String) (dir fmt : String) (q : Int) (resize : PyValue) :
    converter_init_bind (main_window_convert_call files dir fmt q resize) =
      Except.error "TypeError: __init__ takes from 4 to 5 positional arguments" ∧
    (∀ (args : List PyValue) (st : ConverterWorkerState),
      converter_init_bind args = Except.ok st → args.length ≤ 4) ∧
    (∀ a b c e : PyValue,
      converter_init_bind [a, b, c, e] = Except.ok ⟨a, b, c, e⟩) := by
  refine ⟨rfl, ?_, fun a b c e => rfl⟩
  intro args st h
  match args with
  | [] => simp [converter_init_bind] at h
  | [_] => simp [converter_init_bind] at h
  | [_, _] => simp [converter_init_bind] at h
  | [_, _, _] => simp
  | [_, _, _, _] => simp
  | _ :: _ :: _ :: _ :: _ :: _ => simp [converter_init_bind] at h

/-- Witness for C10 amended at the concrete `start_conversion` call with
quality 80 and no resize settings. -/
theorem c10_converter_ctor_amended_witness :
    converter_init_bind
        (main_window_convert_call ["a.png"] "out" "WebP" 80 PyValue.vnone) =
      Except.error "TypeError: __init__ takes from 4 to 5 positional arguments" ∧
    ([PyValue.vnone, PyValue.vnone, PyValue.vnone] : List PyValue).length ≤ 4 ∧
    converter_init_bind
        [PyValue.vlist ["a.png"], PyValue.vstr "out", PyValue.vstr "WebP",
         PyValue.vint 80] =
      Except.ok ⟨PyValue.vlist ["a.png"], PyValue.vstr "out", PyValue.vstr "WebP",
        PyValue.vint 80⟩ := by
  obtain ⟨h1, h2, h3⟩ :=
    c10_converter_ctor_amended ["a.png"] "out" "WebP" 80 PyValue.vnone
  exact ⟨h1, h2 [PyValue.vnone, PyValue.vnone, PyValue.vnone]
    ⟨PyValue.vnone, PyValue.vnone, PyValue.vnone, PyValue.vnone⟩ rfl,
    h3 (PyValue.vlist ["a.png"]) (PyValue.vstr "out") (PyValue.vstr "WebP")
      (PyValue.vint 80)⟩
